import Mathlib

/-!
Verification of the Velero node-agent data-mover core: the DataUpload /
DataDownload reconcilers, the DataPathManager, the shared update-with-retry
helper, and the PodVolumeRestore reconciler.  The PodVolumeRestore part is
embedded directly from `pkg/controller/pod_volume_restore_controller.go`;
the DataUpload / DataDownload controllers themselves are not in the source
tree (only `pkg/controller/data_download_controller_test.go` is), so they
are modelled from the specification, with the behaviours that the tests pin
down kept faithful to those tests.
-/

namespace Velero

/-- Phase of a DataUpload / DataDownload request record (spec section 4.3).
A freshly created record has the empty phase, which is treated as `New`
(spec section 3), so the empty phase is identified with `new` here. -/
inductive Phase where
  | new
  | accepted
  | prepared
  | inProgress
  | completed
  | failed
  | canceling
  | canceled
  deriving DecidableEq, Repr

/-- Completed, Failed and Canceled are the terminal phases (spec section 4.3). -/
def Phase.isTerminal : Phase → Bool
  | .completed => true
  | .failed => true
  | .canceled => true
  | _ => false

/-- Modelled from the spec: the shared request-record shape of DataUpload and
DataDownload (spec section 3); the controllers that mutate it are missing from
the source tree, only their tests are present.  Timestamps are naturals with 0
meaning unset (`IsZero`); `markedForDeletion` stands for a non-nil
`deletionTimestamp`; `hasFinalizer` for membership of the core finalizer in
`finalizers[]`. -/
structure Record where
  name : String
  dataMover : String
  cancel : Bool
  phase : Phase
  node : String
  startTimestamp : Nat
  completionTimestamp : Nat
  message : String
  hasFinalizer : Bool
  markedForDeletion : Bool
  deriving DecidableEq, Repr

/-- Modelled from the spec: the DataPathManager registry (spec section 4.1), a
bounded set of in-flight session names with ceiling `C`. -/
structure DataPathManager where
  ceiling : Nat
  tracked : List String
  deriving DecidableEq, Repr

/-- Modelled from the spec: `DataPathManager.Create` — if the registry is at the
ceiling or the name is already present, return not-accepted without side
effects; otherwise register the session and return accepted. -/
def DataPathManager.create (m : DataPathManager) (name : String) :
    DataPathManager × Bool :=
  if m.tracked.contains name || m.ceiling ≤ m.tracked.length then (m, false)
  else ({ m with tracked := name :: m.tracked }, true)

/-- Modelled from the spec: `DataPathManager.Remove` — close the session if
present and delete the entry; idempotent. -/
def DataPathManager.remove (m : DataPathManager) (name : String) :
    DataPathManager :=
  { m with tracked := m.tracked.filter (· != name) }

/-- Outcome of one optimistic (CAS-style) update against the cluster store:
success, a version conflict, or any other store error. -/
inductive CASOutcome where
  | ok
  | conflict
  | otherErr (msg : String)
  deriving DecidableEq, Repr

/-- Outcome of polling `GetExposed` on the exposer (spec section 4.2): the
hosting pod is ready, not yet ready (nil result, no error), or a terminal
exposer failure. -/
inductive GetExposedOutcome where
  | ready
  | notReady
  | failure (msg : String)
  deriving DecidableEq, Repr

/-- Observable side effects of a reconcile or a session callback, in order of
occurrence. -/
inductive Event where
  | patch (p : Phase)
  | setCancel
  | rebindVolume
  | cleanUp
  | closeSession
  | acquireSlot
  | releaseSlot
  | removeFinalizer
  | forwardCancel
  deriving DecidableEq, Repr

/-- Environment of one reconcile invocation: the reconciler's identity and
clock plus the outcomes the external collaborators (store, exposer) return
during this invocation. -/
structure ReconcileEnv where
  nodeName : String
  mover : String
  now : Nat
  prepareTimeout : Nat
  acceptOutcome : CASOutcome
  timeoutOutcome : CASOutcome
  inProgressOutcome : CASOutcome
  exposeCalled : Bool
  exposeErr : Option String
  getExposed : GetExposedOutcome
  deriving DecidableEq, Repr

/-- Result of one reconcile invocation: the persisted record afterwards
(`none` when the record is absent or has been released for deletion), the
manager state, the emitted side effects, the requeue delay in seconds, and the
error surfaced to the host framework. -/
structure ReconcileResult where
  record : Option Record
  mgr : DataPathManager
  trace : List Event
  requeueAfterSeconds : Option Nat
  err : Option String
  deriving DecidableEq, Repr

/-- Modelled from the spec: `acceptDataUpload` / `acceptDataDownload` (spec
section 4.4 rule 3) — the optimistic CAS that flips a `New` record to
`Accepted` with this node's name, the start timestamp and the finalizer.  A
version conflict means another node won the race: not succeeded, nil error.
Any other update error is surfaced.  Returns ((succeeded, error), record). -/
def acceptRecord (now : Nat) (nodeName : String) (outcome : CASOutcome)
    (rec : Record) : (Bool × Option String) × Record :=
  match outcome with
  | .ok => ((true, none),
      { rec with phase := .accepted, node := nodeName,
                 startTimestamp := now, hasFinalizer := true })
  | .conflict => ((false, none), rec)
  | .otherErr e => ((false, some e), rec)

/-- Modelled from the spec: `onPrepareTimeout` (spec section 4.4 rule 4) —
patch the record to `Failed` with the message `"prepare timeout"` and the
completion timestamp, then clean up; a version conflict is silently absorbed,
any other store error leaves the record unchanged and is surfaced. -/
def onPrepareTimeoutRecord (now : Nat) (outcome : CASOutcome) (rec : Record) :
    Record × List Event × Option String :=
  match outcome with
  | .ok => ({ rec with phase := .failed, message := "prepare timeout",
                       completionTimestamp := now },
            [.patch .failed, .cleanUp], none)
  | .conflict => (rec, [], none)
  | .otherErr e => (rec, [], some e)

/-- Modelled from the spec: one reconcile invocation of the DataUpload /
DataDownload reconciler (spec section 4.4), over the abstract record shape.
Decision points in order: missing record; unrecognized data mover; terminal
phase (with the deletion/finalizer release pinned by the tests to terminal
records only — a deleting non-terminal record instead gets `spec.cancel`
set, as `TestReconcile` and `TestDataDownloadReconcile` assert); `New` accept;
`Accepted` prepare-timeout then expose/poll; `Prepared` slot acquisition with
a 5-second requeue on capacity refusal; `InProgress` cancellation forward. -/
def reconcile (env : ReconcileEnv) (mgr : DataPathManager)
    (rec? : Option Record) : ReconcileResult :=
  match rec? with
  | none => ⟨none, mgr, [], none, none⟩
  | some rec =>
    if rec.dataMover ≠ env.mover then
      ⟨some rec, mgr, [], none, none⟩
    else if rec.phase.isTerminal then
      if rec.markedForDeletion && rec.hasFinalizer then
        ⟨none, mgr.remove rec.name,
         [.closeSession, .releaseSlot, .cleanUp, .removeFinalizer], none, none⟩
      else
        ⟨some rec, mgr, [], none, none⟩
    else if rec.markedForDeletion && !rec.cancel then
      ⟨some { rec with cancel := true }, mgr, [.setCancel], none, none⟩
    else
      match rec.phase with
      | .new =>
        match acceptRecord env.now env.nodeName env.acceptOutcome rec with
        | ((true, _), rec2) => ⟨some rec2, mgr, [.patch .accepted], none, none⟩
        | ((false, e), rec2) => ⟨some rec2, mgr, [], none, e⟩
      | .accepted =>
        if rec.startTimestamp ≠ 0 ∧
            env.prepareTimeout < env.now - rec.startTimestamp then
          match onPrepareTimeoutRecord env.now env.timeoutOutcome rec with
          | (rec2, tr, e) => ⟨some rec2, mgr, tr, none, e⟩
        else if rec.node = env.nodeName then
          if !env.exposeCalled then
            match env.exposeErr with
            | some e =>
              ⟨some { rec with phase := .failed, message := e,
                               completionTimestamp := env.now },
               mgr, [.patch .failed, .cleanUp], none, some e⟩
            | none => ⟨some rec, mgr, [], none, none⟩
          else
            match env.getExposed with
            | .ready => ⟨some { rec with phase := .prepared }, mgr,
                         [.patch .prepared], none, none⟩
            | .notReady => ⟨some rec, mgr, [], some 5, none⟩
            | .failure e =>
              ⟨some { rec with phase := .failed, message := e,
                               completionTimestamp := env.now },
               mgr, [.patch .failed, .cleanUp], none, some e⟩
        else
          ⟨some rec, mgr, [], none, none⟩
      | .prepared =>
        if rec.node = env.nodeName then
          match mgr.create rec.name with
          | (mgr2, true) =>
            match env.inProgressOutcome with
            | .ok => ⟨some { rec with phase := .inProgress }, mgr2,
                      [.acquireSlot, .patch .inProgress], none, none⟩
            | .conflict => ⟨some rec, mgr2.remove rec.name,
                            [.acquireSlot, .releaseSlot], none, none⟩
            | .otherErr e => ⟨some rec, mgr2.remove rec.name,
                              [.acquireSlot, .releaseSlot], none, some e⟩
          | (_, false) => ⟨some rec, mgr, [], some 5, none⟩
        else
          ⟨some rec, mgr, [], none, none⟩
      | .inProgress =>
        if rec.cancel then
          ⟨some { rec with phase := .canceling }, mgr,
           [.patch .canceling, .forwardCancel], none, none⟩
        else
          ⟨some rec, mgr, [], none, none⟩
      | .canceling => ⟨some rec, mgr, [], none, none⟩
      | _ => ⟨some rec, mgr, [], none, none⟩

/-- Modelled from the spec: the `OnDataUploadCompleted` session callback —
patch the record to `Completed` with the completion timestamp, then clean up
the exposer; a store get error leaves the record untouched
(`TestOnDataUploadCompleted`). -/
def OnDataUploadCompleted (now : Nat) (getErr : Bool) (rec : Record) :
    Record × List Event :=
  if getErr then (rec, [])
  else ({ rec with phase := .completed, completionTimestamp := now },
        [.patch .completed, .closeSession, .releaseSlot, .cleanUp])

/-- Modelled from the spec: the `OnDataDownloadCompleted` session callback —
rebind the restored volume to the target PVC first; a rebind failure demotes
the record to `Failed` with the rebind error in the message, a successful
rebind completes it; either way the exposer is cleaned up exactly once, after
the rebind (`TestOnDataDownloadCompleted`, spec sections 4.4 and 5). -/
def OnDataDownloadCompleted (now : Nat) (getErr : Bool)
    (rebindErr : Option String) (rec : Record) : Record × List Event :=
  if getErr then (rec, [])
  else
    match rebindErr with
    | some e =>
      ({ rec with phase := .failed,
                  message := "error rebinding volume: " ++ e,
                  completionTimestamp := now },
       [.rebindVolume, .patch .failed, .closeSession, .releaseSlot, .cleanUp])
    | none =>
      ({ rec with phase := .completed, completionTimestamp := now },
       [.rebindVolume, .patch .completed, .closeSession, .releaseSlot,
        .cleanUp])

/-- Modelled from the spec: the `OnDataUploadFailed` session callback — patch
the record to `Failed` with the error message and the completion timestamp,
setting the start timestamp too when it was never set
(`TestOnDataUploadFailed` asserts a non-zero start timestamp afterwards). -/
def OnDataUploadFailed (now : Nat) (getErr : Bool) (errMsg : String)
    (rec : Record) : Record × List Event :=
  if getErr then (rec, [])
  else ({ rec with phase := .failed, message := errMsg,
                   startTimestamp :=
                     if rec.startTimestamp = 0 then now else rec.startTimestamp,
                   completionTimestamp := now },
        [.patch .failed, .closeSession, .releaseSlot, .cleanUp])

/-- Modelled from the spec: the `OnDataDownloadFailed` session callback — like
the upload one but leaving the start timestamp alone
(`TestOnDataDownloadFailed` asserts it stays zero). -/
def OnDataDownloadFailed (now : Nat) (getErr : Bool) (errMsg : String)
    (rec : Record) : Record × List Event :=
  if getErr then (rec, [])
  else ({ rec with phase := .failed, message := errMsg,
                   completionTimestamp := now },
        [.patch .failed, .closeSession, .releaseSlot, .cleanUp])

/-- Modelled from the spec: the `OnDataUploadCancelled` session callback —
patch the record to `Canceled` with the completion timestamp, setting the
start timestamp when it was never set so a record cancelled before it started
still reports one (`TestOnDataUploadCancelled`). -/
def OnDataUploadCancelled (now : Nat) (getErr : Bool) (rec : Record) :
    Record × List Event :=
  if getErr then (rec, [])
  else ({ rec with phase := .canceled,
                   startTimestamp :=
                     if rec.startTimestamp = 0 then now else rec.startTimestamp,
                   completionTimestamp := now },
        [.patch .canceled, .closeSession, .releaseSlot, .cleanUp])

/-- Modelled from the spec: the `OnDataDownloadCancelled` session callback —
same shape as the upload one (`TestOnDataDownloadCancelled` asserts both
timestamps are non-zero afterwards). -/
def OnDataDownloadCancelled (now : Nat) (getErr : Bool) (rec : Record) :
    Record × List Event :=
  if getErr then (rec, [])
  else ({ rec with phase := .canceled,
                   startTimestamp :=
                     if rec.startTimestamp = 0 then now else rec.startTimestamp,
                   completionTimestamp := now },
        [.patch .canceled, .closeSession, .releaseSlot, .cleanUp])

/-- Outcome of one read-modify-update attempt inside the retrying update
helper: the initial read fails, the update succeeds, the update hits a
version conflict, or the update fails with some other error. -/
inductive AttemptOutcome where
  | getErr (msg : String)
  | updateOk
  | updateConflict
  | updateErr (msg : String)
  deriving DecidableEq, Repr

/-- Modelled from the spec: `UpdateDataUploadWithRetry` /
`UpdateDataDownloadWithRetry` (spec section 4.6) — read the record by key,
apply the caller-supplied mutator, attempt the update; a version conflict
causes a re-read and a retried attempt, with the backoff bounded by the
caller's context deadline.  The list holds the outcomes of the successive
attempts the deadline leaves room for; exhausting it is the context expiring
while conflicts persist, which is a terminal error. -/
def updateWithRetry (mutate : Record → Record) :
    List AttemptOutcome → Record → Except String Record
  | [], _ => .error "context deadline exceeded"
  | .getErr e :: _, _ => .error e
  | .updateOk :: _, rec => .ok (mutate rec)
  | .updateConflict :: rest, rec => updateWithRetry mutate rest rec
  | .updateErr e :: _, _ => .error e

/-! ## PodVolumeRestore reconciler

Embedded from `pkg/controller/pod_volume_restore_controller.go`. -/

/-- Phase of a PodVolumeRestore: the empty phase of a fresh record is distinct
from `New` in the source (`isPVRNew` checks both). -/
inductive PVRPhase where
  | empty
  | new
  | inProgress
  | completed
  | failed
  deriving DecidableEq, Repr

/-- The PodVolumeRestore status fields `processRestore` touches.  Timestamps
are naturals with 0 meaning unset. -/
structure PVR where
  phase : PVRPhase
  startTimestamp : Nat
  completionTimestamp : Nat
  message : String
  deriving DecidableEq, Repr

/-- The slices of a pod `processRestore` reads: the node it is scheduled on,
the names of its init containers (`pod.Spec.InitContainers`) and, for each
entry of `pod.Status.InitContainerStatuses`, whether `State.Running` is
non-nil. -/
structure Pod where
  nodeName : String
  initContainerNames : List String
  initContainerRunning : List Bool
  deriving DecidableEq, Repr

/-- The name of the restic-wait init container, `restic.InitContainer` (the
`restic` package is outside the given sources; the guards only compare
against it). -/
def resticInitContainer : String := "restic-wait"

/-- `isPVRNew`: the restore has the empty phase or phase `New`. -/
def isPVRNew (pvr : PVR) : Bool :=
  pvr.phase == .empty || pvr.phase == .new

/-- `isPodOnNode`: the pod is scheduled on the given node. -/
def isPodOnNode (pod : Pod) (node : String) : Bool :=
  pod.nodeName == node

/-- `getResticInitContainerIndex`: index of the first init container named
`restic.InitContainer`, or -1 when there is none. -/
def getResticInitContainerIndex (pod : Pod) : Int :=
  match pod.initContainerNames.findIdx? (· == resticInitContainer) with
  | some i => (i : Int)
  | none => -1

/-- `isResticInitContainerRunning`: the restic-wait init container exists, has
a status entry, and that status reports a running state. -/
def isResticInitContainerRunning (pod : Pod) : Bool :=
  let i := getResticInitContainerIndex pod
  decide (0 ≤ i) &&
    decide (i ≤ (pod.initContainerRunning.length : Int) - 1) &&
    pod.initContainerRunning.getD i.toNat false

/-- Environment of one `processRestore` call: the reconciler's node name and
clock, and the outcomes of the fallible steps — the client `Patch` (the fake
client in the tests fails every patch alike), `kube.GetVolumeDirectory2` and
`restorePodVolume`. -/
structure RestoreEnv where
  nodeName : String
  now : Nat
  patchErr : Option String
  volumeDirErr : Option String
  restoreErr : Option String
  deriving DecidableEq, Repr

/-- `patchPodVolumeRestore`: apply the mutator and persist it with a merge
patch; on a client patch error nothing is persisted and the error is
returned wrapped. -/
def patchPodVolumeRestore (env : RestoreEnv) (pvr : PVR)
    (mutate : PVR → PVR) : Except String PVR :=
  match env.patchErr with
  | some e => .error ("error patching PodVolumeRestore: " ++ e)
  | none => .ok (mutate pvr)

/-- Result of `failRestore` / `processRestore`: the persisted record, the
error returned to the caller, and the successive successfully persisted
states, in order. -/
structure RestoreOutcome where
  store : PVR
  err : Option String
  writes : List PVR
  deriving DecidableEq, Repr

/-- `failRestore`: patch the restore to `Failed` with the message and the
completion timestamp; a patch error is returned, otherwise nil. -/
def failRestore (env : RestoreEnv) (pvr : PVR) (msg : String) :
    RestoreOutcome :=
  match patchPodVolumeRestore env pvr (fun r =>
      { r with phase := .failed, message := msg,
               completionTimestamp := env.now }) with
  | .error e => ⟨pvr, some e, []⟩
  | .ok r => ⟨r, none, [r]⟩

/-- `processRestore`: skip (no write, nil error) unless the restore is new,
its pod is on this node, and the restic-wait init container is running; then
patch to `InProgress` with the start timestamp, compute the volume directory,
run the restore, and patch to `Completed` — failures of the two middle steps
divert to `failRestore`. -/
def processRestore (env : RestoreEnv) (pvr : PVR) (pod : Pod) :
    RestoreOutcome :=
  if isPVRNew pvr = false then ⟨pvr, none, []⟩
  else if isPodOnNode pod env.nodeName = false then ⟨pvr, none, []⟩
  else if isResticInitContainerRunning pod = false then ⟨pvr, none, []⟩
  else
    match patchPodVolumeRestore env pvr (fun r =>
        { r with phase := .inProgress, startTimestamp := env.now }) with
    | .error e => ⟨pvr, some e, []⟩
    | .ok r1 =>
      match env.volumeDirErr with
      | some e =>
        let o := failRestore env r1 ("error getting volume directory name: " ++ e)
        ⟨o.store, o.err, r1 :: o.writes⟩
      | none =>
        match env.restoreErr with
        | some e =>
          let o := failRestore env r1 ("error restoring volume: " ++ e)
          ⟨o.store, o.err, r1 :: o.writes⟩
        | none =>
          match patchPodVolumeRestore env r1 (fun r =>
              { r with phase := .completed,
                       completionTimestamp := env.now }) with
          | .error e => ⟨r1, some e, [r1]⟩
          | .ok r2 => ⟨r2, none, [r1, r2]⟩

/-! ## Claims -/

/-- Claim C3: for the Accept operation (`acceptDataUpload` /
`acceptDataDownload`) on a New record, a version conflict from the optimistic
update is not an error — the call returns not-succeeded with a nil error,
another node won the race; any other update error is surfaced to the caller;
a conflict-free update returns succeeded, with the record flipped to Accepted
for this node. -/
theorem accept_conflict_not_an_error (now : Nat) (nodeName : String)
    (rec : Record) :
    acceptRecord now nodeName .conflict rec = ((false, none), rec) ∧
    (∀ e, acceptRecord now nodeName (.otherErr e) rec = ((false, some e), rec)) ∧
    acceptRecord now nodeName .ok rec =
      ((true, none),
       { rec with phase := .accepted, node := nodeName,
                  startTimestamp := now, hasFinalizer := true }) :=
  ⟨rfl, fun _ => rfl, rfl⟩

/-- Claim C7: `UpdateDataUploadWithRetry` / `UpdateDataDownloadWithRetry`
reads the record by key, applies the caller-supplied mutator and attempts the
update; a version conflict causes re-read and retry while the deadline lasts,
and an error is returned when the deadline expires while conflicts persist; a
get error or a non-conflict update error is returned; on success the mutation
is persisted. -/
theorem updateWithRetry_behaviour (mutate : Record → Record) (rec : Record) :
    (∀ rest, updateWithRetry mutate (.updateConflict :: rest) rec =
      updateWithRetry mutate rest rec) ∧
    (∀ n, updateWithRetry mutate (List.replicate n .updateConflict) rec =
      .error "context deadline exceeded") ∧
    (∀ e rest, updateWithRetry mutate (.getErr e :: rest) rec = .error e) ∧
    (∀ e rest, updateWithRetry mutate (.updateErr e :: rest) rec = .error e) ∧
    (∀ rest, updateWithRetry mutate (.updateOk :: rest) rec =
      .ok (mutate rec)) := by
  refine ⟨fun _ => rfl, ?_, fun _ _ => rfl, fun _ _ => rfl, fun _ => rfl⟩
  intro n
  induction n with
  | zero => rfl
  | succ k ih => simpa [List.replicate, updateWithRetry] using ih

/-- Claim C9: for both DataUpload and DataDownload, the OnCancelled handler
sets the start timestamp when it was previously unset, in addition to the
completion timestamp, so a record canceled before it ever started still
reports a non-zero start timestamp in its terminal Canceled state (and an
already-set start timestamp is kept). -/
theorem onCancelled_sets_startTimestamp (now : Nat) (rec : Record)
    (hnow : now ≠ 0) :
    (rec.startTimestamp = 0 →
      (OnDataUploadCancelled now false rec).1.phase = .canceled ∧
      (OnDataUploadCancelled now false rec).1.startTimestamp = now ∧
      (OnDataUploadCancelled now false rec).1.startTimestamp ≠ 0 ∧
      (OnDataUploadCancelled now false rec).1.completionTimestamp = now ∧
      (OnDataDownloadCancelled now false rec).1.phase = .canceled ∧
      (OnDataDownloadCancelled now false rec).1.startTimestamp = now ∧
      (OnDataDownloadCancelled now false rec).1.startTimestamp ≠ 0 ∧
      (OnDataDownloadCancelled now false rec).1.completionTimestamp = now) ∧
    (rec.startTimestamp ≠ 0 →
      (OnDataUploadCancelled now false rec).1.startTimestamp
          = rec.startTimestamp ∧
      (OnDataDownloadCancelled now false rec).1.startTimestamp
          = rec.startTimestamp) := by
  constructor
  · intro h0
    simp [OnDataUploadCancelled, OnDataDownloadCancelled, h0, hnow]
  · intro h1
    simp [OnDataUploadCancelled, OnDataDownloadCancelled, h1]

/-- Witness for claim C9, at a record that never started. -/
theorem onCancelled_sets_startTimestamp_witness :
    (OnDataUploadCancelled 7 false
      ⟨"u1", "velero", false, .inProgress, "n1", 0, 0, "", true, false⟩).1.startTimestamp
      = 7 :=
  ((onCancelled_sets_startTimestamp 7
    ⟨"u1", "velero", false, .inProgress, "n1", 0, 0, "", true, false⟩
    (by decide)).1 rfl).2.1

/-- Claim C5: when a DataDownload session reports OnCompleted, RebindVolume is
invoked before exposer CleanUp; if RebindVolume fails, the final phase is
Failed (not Completed) with the rebind error in the message and CleanUp called
exactly once; if RebindVolume succeeds the phase becomes Completed with the
completion timestamp set (and CleanUp is still called exactly once, after the
rebind). -/
theorem onDataDownloadCompleted_rebind (now : Nat) (rec : Record)
    (hnow : now ≠ 0) :
    (∀ e,
      (OnDataDownloadCompleted now false (some e) rec).1.phase = .failed ∧
      (OnDataDownloadCompleted now false (some e) rec).1.phase ≠ .completed ∧
      (∃ pre, (OnDataDownloadCompleted now false (some e) rec).1.message
          = pre ++ e) ∧
      (OnDataDownloadCompleted now false (some e) rec).1.completionTimestamp
          ≠ 0 ∧
      (OnDataDownloadCompleted now false (some e) rec).2.count .cleanUp = 1 ∧
      ((OnDataDownloadCompleted now false (some e) rec).2.takeWhile
          (· != Event.cleanUp)).contains .rebindVolume = true) ∧
    ((OnDataDownloadCompleted now false none rec).1.phase = .completed ∧
     (OnDataDownloadCompleted now false none rec).1.completionTimestamp ≠ 0 ∧
     (OnDataDownloadCompleted now false none rec).2.count .cleanUp = 1 ∧
     ((OnDataDownloadCompleted now false none rec).2.takeWhile
         (· != Event.cleanUp)).contains .rebindVolume = true) := by
  constructor
  · intro e
    refine ⟨rfl, by simp [OnDataDownloadCompleted],
      ⟨"error rebinding volume: ", rfl⟩,
      by simpa [OnDataDownloadCompleted] using hnow, rfl, rfl⟩
  · exact ⟨rfl, by simpa [OnDataDownloadCompleted] using hnow, rfl, rfl⟩

/-- Witness for claim C5, at a concrete record and the rebind error of the
spec's scenario 5. -/
theorem onDataDownloadCompleted_rebind_witness :
    (OnDataDownloadCompleted 9 false (some "bind refused")
      ⟨"dd1", "velero", false, .inProgress, "n1", 3, 0, "", true, false⟩).1.phase
      = .failed ∧
    (OnDataDownloadCompleted 9 false (some "bind refused")
      ⟨"dd1", "velero", false, .inProgress, "n1", 3, 0, "", true, false⟩).2.count
      .cleanUp = 1 :=
  ⟨((onDataDownloadCompleted_rebind 9
      ⟨"dd1", "velero", false, .inProgress, "n1", 3, 0, "", true, false⟩
      (by decide)).1 "bind refused").1,
   ((onDataDownloadCompleted_rebind 9
      ⟨"dd1", "velero", false, .inProgress, "n1", 3, 0, "", true, false⟩
      (by decide)).1 "bind refused").2.2.2.2.1⟩

/-- Claim C6: a reconcile of a record in InProgress with spec.cancel = true
transitions it to Canceling and forwards Cancel to the session; with
spec.cancel = false the record remains InProgress and the reconcile makes no
state change. -/
theorem inProgress_cancel_forwards (env : ReconcileEnv)
    (mgr : DataPathManager) (rec : Record) (hmv : rec.dataMover = env.mover)
    (hph : rec.phase = .inProgress) (hdel : rec.markedForDeletion = false) :
    (rec.cancel = true →
      reconcile env mgr (some rec) =
        ⟨some { rec with phase := .canceling }, mgr,
         [.patch .canceling, .forwardCancel], none, none⟩) ∧
    (rec.cancel = false →
      reconcile env mgr (some rec) = ⟨some rec, mgr, [], none, none⟩) := by
  constructor
  · intro hc
    simp [reconcile, hmv, hph, hdel, hc, Phase.isTerminal]
  · intro hc
    simp [reconcile, hmv, hph, hdel, hc, Phase.isTerminal]

/-- Witness for claim C6, at a concrete cancelled in-progress record. -/
theorem inProgress_cancel_forwards_witness :
    reconcile ⟨"n1", "velero", 50, 300, .ok, .ok, .ok, true, none, .ready⟩
        ⟨1, ["du1"]⟩
        (some ⟨"du1", "velero", true, .inProgress, "n1", 3, 0, "", true, false⟩) =
      ⟨some ⟨"du1", "velero", true, .canceling, "n1", 3, 0, "", true, false⟩,
       ⟨1, ["du1"]⟩, [.patch .canceling, .forwardCancel], none, none⟩ :=
  (inProgress_cancel_forwards
    ⟨"n1", "velero", 50, 300, .ok, .ok, .ok, true, none, .ready⟩
    ⟨1, ["du1"]⟩
    ⟨"du1", "velero", true, .inProgress, "n1", 3, 0, "", true, false⟩
    rfl rfl rfl).1 rfl

/-- Claim C4: with concurrency ceiling 0 no session slot is ever available, so
every reconcile of a record in phase Prepared (for this mover, on its node,
not marked for deletion) returns a 5-second requeue and leaves the record,
the manager and everything else unchanged. -/
theorem prepared_capacity_zero_requeues (env : ReconcileEnv)
    (mgr : DataPathManager) (rec : Record) (hmv : rec.dataMover = env.mover)
    (hph : rec.phase = .prepared) (hdel : rec.markedForDeletion = false)
    (hnode : rec.node = env.nodeName) (hc : mgr.ceiling = 0) :
    reconcile env mgr (some rec) = ⟨some rec, mgr, [], some 5, none⟩ := by
  have hcr : mgr.create rec.name = (mgr, false) := by
    simp [DataPathManager.create, hc]
  simp [reconcile, hmv, hph, hdel, hnode, hcr, Phase.isTerminal]

/-- Witness for claim C4, at a concrete prepared record and an empty manager
with ceiling 0. -/
theorem prepared_capacity_zero_requeues_witness :
    reconcile ⟨"n1", "velero", 50, 300, .ok, .ok, .ok, true, none, .ready⟩
        ⟨0, []⟩
        (some ⟨"du1", "velero", false, .prepared, "n1", 3, 0, "", true, false⟩) =
      ⟨some ⟨"du1", "velero", false, .prepared, "n1", 3, 0, "", true, false⟩,
       ⟨0, []⟩, [], some 5, none⟩ :=
  prepared_capacity_zero_requeues
    ⟨"n1", "velero", 50, 300, .ok, .ok, .ok, true, none, .ready⟩
    ⟨0, []⟩
    ⟨"du1", "velero", false, .prepared, "n1", 3, 0, "", true, false⟩
    rfl rfl rfl rfl rfl

/-- Claim C1: a record in Accepted whose start timestamp lies more than the
prepare timeout in the past is flipped by the next reconcile to Failed with
the message "prepare timeout" and a non-zero completion timestamp, without a
session slot ever being acquired (manager untouched, no slot event), and the
timeout fires exactly once — a further reconcile of the failed record changes
nothing; while the elapsed time is within the prepare timeout no timeout
fires (the reconcile merely polls the exposer). -/
theorem prepare_timeout_fires_once (env : ReconcileEnv)
    (mgr : DataPathManager) (rec : Record) (hmv : rec.dataMover = env.mover)
    (hph : rec.phase = .accepted) (hdel : rec.markedForDeletion = false)
    (hst : rec.startTimestamp ≠ 0) :
    (env.prepareTimeout < env.now - rec.startTimestamp →
      env.timeoutOutcome = .ok →
      reconcile env mgr (some rec) =
        ⟨some { rec with phase := .failed, message := "prepare timeout",
                         completionTimestamp := env.now },
         mgr, [.patch .failed, .cleanUp], none, none⟩ ∧
      env.now ≠ 0 ∧
      (∀ env2 mgr2,
        reconcile env2 mgr2
            (some { rec with phase := .failed, message := "prepare timeout",
                             completionTimestamp := env.now }) =
          ⟨some { rec with phase := .failed, message := "prepare timeout",
                           completionTimestamp := env.now },
           mgr2, [], none, none⟩)) ∧
    (¬ env.prepareTimeout < env.now - rec.startTimestamp →
      rec.node = env.nodeName → env.exposeCalled = true →
      env.getExposed = .notReady →
      reconcile env mgr (some rec) = ⟨some rec, mgr, [], some 5, none⟩) := by
  constructor
  · intro hgt hok
    have hnow : env.now ≠ 0 := by
      rcases Nat.eq_zero_or_pos env.now with h | h
      · rw [h] at hgt
        omega
      · omega
    refine ⟨?_, hnow, ?_⟩
    · simp [reconcile, hmv, hph, hdel, hst, hgt, hok, onPrepareTimeoutRecord,
        Phase.isTerminal]
    · intro env2 mgr2
      by_cases hmv2 : rec.dataMover = env2.mover
      · simp [reconcile, hmv2, hdel, Phase.isTerminal]
      · simp [reconcile, hmv2]
  · intro hle hnode hexp hnr
    simp [reconcile, hmv, hph, hdel, hle, hnode, hexp, hnr, Phase.isTerminal]

/-- Witness for claim C1: a record accepted at time 10 with a 300-second
prepare timeout, reconciled at time 400. -/
theorem prepare_timeout_fires_once_witness :
    reconcile ⟨"n1", "velero", 400, 300, .ok, .ok, .ok, false, none, .notReady⟩
        ⟨1, []⟩
        (some ⟨"du1", "velero", false, .accepted, "n1", 10, 0, "", true, false⟩) =
      ⟨some ⟨"du1", "velero", false, .failed, "n1", 10, 400,
            "prepare timeout", true, false⟩,
       ⟨1, []⟩, [.patch .failed, .cleanUp], none, none⟩ :=
  ((prepare_timeout_fires_once
    ⟨"n1", "velero", 400, 300, .ok, .ok, .ok, false, none, .notReady⟩
    ⟨1, []⟩
    ⟨"du1", "velero", false, .accepted, "n1", 10, 0, "", true, false⟩
    rfl rfl rfl (by decide)).1 (by decide) rfl).1

/-- Counterexample to claim C2 as stated: a record in the non-terminal phase
Accepted, marked for deletion and holding the finalizer, is not released by
reconcile — the record survives with the finalizer still attached and no
CleanUp; the reconcile only sets spec.cancel (as `TestReconcile` and
`TestDataDownloadReconcile` pin for their deleting Accepted records). -/
theorem deletion_of_accepted_not_released :
    (reconcile ⟨"n1", "velero", 50, 300, .ok, .ok, .ok, false, none, .notReady⟩
        ⟨1, []⟩
        (some ⟨"du1", "velero", false, .accepted, "n1", 10, 0, "", true, true⟩)).record
      = some ⟨"du1", "velero", true, .accepted, "n1", 10, 0, "", true, true⟩ ∧
    (reconcile ⟨"n1", "velero", 50, 300, .ok, .ok, .ok, false, none, .notReady⟩
        ⟨1, []⟩
        (some ⟨"du1", "velero", false, .accepted, "n1", 10, 0, "", true, true⟩)).record
      ≠ none ∧
    ((reconcile ⟨"n1", "velero", 50, 300, .ok, .ok, .ok, false, none, .notReady⟩
        ⟨1, []⟩
        (some ⟨"du1", "velero", false, .accepted, "n1", 10, 0, "", true, true⟩)).record.map
        Record.hasFinalizer) = some true ∧
    (reconcile ⟨"n1", "velero", 50, 300, .ok, .ok, .ok, false, none, .notReady⟩
        ⟨1, []⟩
        (some ⟨"du1", "velero", false, .accepted, "n1", 10, 0, "", true, true⟩)).trace
      = [.setCancel] := by
  refine ⟨rfl, by decide, rfl, rfl⟩

/-- Claim C2 (amended): a record with deletionTimestamp set and holding the
core's finalizer is released by reconcile — session closed, slot released,
exposer CleanUp invoked, finalizer removed, so the next reconcile observes a
missing record — when its phase is terminal; a non-terminal record (such as
Accepted or InProgress) marked for deletion is instead patched with
spec.cancel = true and retained, record and finalizer intact, the release
happening only once cancellation has driven it to a terminal phase. -/
theorem deletion_finalizer_release (env : ReconcileEnv)
    (mgr : DataPathManager) (rec : Record) (hmv : rec.dataMover = env.mover)
    (hdel : rec.markedForDeletion = true) (hfin : rec.hasFinalizer = true) :
    (rec.phase.isTerminal = true →
      reconcile env mgr (some rec) =
        ⟨none, mgr.remove rec.name,
         [.closeSession, .releaseSlot, .cleanUp, .removeFinalizer],
         none, none⟩ ∧
      rec.name ∉ (reconcile env mgr (some rec)).mgr.tracked ∧
      (∀ env2 mgr2, reconcile env2 mgr2 none = ⟨none, mgr2, [], none, none⟩)) ∧
    (rec.phase.isTerminal = false → rec.cancel = false →
      reconcile env mgr (some rec) =
        ⟨some { rec with cancel := true }, mgr, [.setCancel], none, none⟩) := by
  constructor
  · intro hterm
    refine ⟨by simp [reconcile, hmv, hterm, hdel, hfin], ?_, fun _ _ => rfl⟩
    simp [reconcile, hmv, hterm, hdel, hfin, DataPathManager.remove,
      List.mem_filter]
  · intro hterm hc
    cases hp : rec.phase <;>
      simp_all [reconcile, Phase.isTerminal]

/-- Witness for the amended claim C2, at a concrete failed record marked for
deletion whose session is still registered. -/
theorem deletion_finalizer_release_witness :
    reconcile ⟨"n1", "velero", 50, 300, .ok, .ok, .ok, false, none, .notReady⟩
        ⟨1, ["du1"]⟩
        (some ⟨"du1", "velero", true, .failed, "n1", 10, 20, "x", true, true⟩) =
      ⟨none, ⟨1, []⟩,
       [.closeSession, .releaseSlot, .cleanUp, .removeFinalizer],
       none, none⟩ :=
  ((deletion_finalizer_release
    ⟨"n1", "velero", 50, 300, .ok, .ok, .ok, false, none, .notReady⟩
    ⟨1, ["du1"]⟩
    ⟨"du1", "velero", true, .failed, "n1", 10, 20, "x", true, true⟩
    rfl rfl rfl).1 rfl).1

/-- Claim C10: `processRestore` leaves the PodVolumeRestore entirely unchanged
and returns nil unless all three guards hold — the phase is empty or New, the
pod is scheduled on this reconciler's node, and the restic-wait init container
is running; only when all guards pass is the record patched to InProgress with
the start timestamp set (the first persisted write, when the client patch goes
through). -/
theorem processRestore_guard_frame (env : RestoreEnv) (pvr : PVR) (pod : Pod) :
    ((isPVRNew pvr = false ∨ isPodOnNode pod env.nodeName = false ∨
        isResticInitContainerRunning pod = false) →
      processRestore env pvr pod = ⟨pvr, none, []⟩) ∧
    (isPVRNew pvr = true → isPodOnNode pod env.nodeName = true →
      isResticInitContainerRunning pod = true → env.patchErr = none →
      (processRestore env pvr pod).writes.head? =
        some { pvr with phase := .inProgress, startTimestamp := env.now }) := by
  constructor
  · intro h
    by_cases h1 : isPVRNew pvr = false
    · simp [processRestore, h1]
    · have h1t : isPVRNew pvr = true := by
        revert h1
        cases isPVRNew pvr <;> simp
      by_cases h2 : isPodOnNode pod env.nodeName = false
      · simp [processRestore, h1t, h2]
      · have h2t : isPodOnNode pod env.nodeName = true := by
          revert h2
          cases isPodOnNode pod env.nodeName <;> simp
        have h3 : isResticInitContainerRunning pod = false := by
          rcases h with h | h | h
          · rw [h1t] at h
            exact absurd h (by simp)
          · rw [h2t] at h
            exact absurd h (by simp)
          · exact h
        simp [processRestore, h1t, h2t, h3]
  · intro h1 h2 h3 hpe
    cases hv : env.volumeDirErr <;>
      cases hr : env.restoreErr <;>
        simp [processRestore, h1, h2, h3, hpe, hv, hr,
          patchPodVolumeRestore, failRestore]

/-- Witness for claim C10: a new restore whose pod runs the restic-wait init
container on this node is patched to InProgress with the start timestamp of
the reconciler's clock. -/
theorem processRestore_guard_frame_witness :
    (processRestore ⟨"node-1", 42, none, none, none⟩ ⟨.new, 0, 0, ""⟩
        ⟨"node-1", ["restic-wait"], [true]⟩).writes.head? =
      some ⟨.inProgress, 42, 0, ""⟩ :=
  (processRestore_guard_frame ⟨"node-1", 42, none, none, none⟩ ⟨.new, 0, 0, ""⟩
    ⟨"node-1", ["restic-wait"], [true]⟩).2 (by decide) (by decide) (by decide)
    rfl

set_option linter.unnecessarySeqFocus false in
/-- Claim C8: every record that reaches a terminal phase (Completed, Failed or
Canceled) has a non-zero completion timestamp: (i) reconcile preserves the
invariant "terminal phase implies non-zero completion timestamp", covering the
prepare-timeout and expose-failure transitions; (ii) every terminal session
callback — OnCompleted, OnFailed, OnCancelled, for upload and download alike —
establishes it outright; (iii) the PodVolumeRestore failure path `failRestore`
sets it. -/
theorem terminal_phase_has_completionTimestamp :
    (∀ (env : ReconcileEnv) (mgr : DataPathManager) (rec r2 : Record),
      env.now ≠ 0 →
      (rec.phase.isTerminal = true → rec.completionTimestamp ≠ 0) →
      (reconcile env mgr (some rec)).record = some r2 →
      r2.phase.isTerminal = true → r2.completionTimestamp ≠ 0) ∧
    (∀ (now : Nat) (e : String) (rec : Record), now ≠ 0 →
      (OnDataUploadCompleted now false rec).1.completionTimestamp ≠ 0 ∧
      (OnDataDownloadCompleted now false none rec).1.completionTimestamp ≠ 0 ∧
      (OnDataDownloadCompleted now false (some e)
          rec).1.completionTimestamp ≠ 0 ∧
      (OnDataUploadFailed now false e rec).1.completionTimestamp ≠ 0 ∧
      (OnDataDownloadFailed now false e rec).1.completionTimestamp ≠ 0 ∧
      (OnDataUploadCancelled now false rec).1.completionTimestamp ≠ 0 ∧
      (OnDataDownloadCancelled now false rec).1.completionTimestamp ≠ 0) ∧
    (∀ (env : RestoreEnv) (pvr : PVR) (msg : String),
      env.patchErr = none → env.now ≠ 0 →
      (failRestore env pvr msg).store.completionTimestamp ≠ 0) := by
  refine ⟨?_, ?_, ?_⟩
  · intro env mgr rec r2 hnow hinv hr hterm
    by_cases hmv : rec.dataMover = env.mover
    · by_cases hterm0 : rec.phase.isTerminal = true
      · by_cases hdf : (rec.markedForDeletion && rec.hasFinalizer) = true
        · simp [reconcile, hmv, hterm0, hdf] at hr
        · simp [reconcile, hmv, hterm0, hdf] at hr
          subst hr
          exact hinv hterm0
      · by_cases hdc : (rec.markedForDeletion && !rec.cancel) = true
        · simp [reconcile, hmv, hterm0, hdc] at hr
          subst hr
          simp only [Phase.isTerminal] at hterm hterm0
          exact absurd hterm hterm0
        · cases hph : rec.phase with
          | new =>
            cases hao : env.acceptOutcome <;>
              simp_all [reconcile, acceptRecord, Phase.isTerminal] <;>
              (subst hr; simp_all [Phase.isTerminal])
          | accepted =>
            by_cases ht : rec.startTimestamp ≠ 0 ∧
                env.prepareTimeout < env.now - rec.startTimestamp
            · cases hto : env.timeoutOutcome <;>
                simp_all [reconcile, onPrepareTimeoutRecord,
                  Phase.isTerminal] <;>
                (subst hr; simp_all [Phase.isTerminal])
            · by_cases hnd : rec.node = env.nodeName
              · cases hec : env.exposeCalled
                · cases hee : env.exposeErr <;>
                    simp_all [reconcile, Phase.isTerminal] <;>
                    (subst hr; simp_all [Phase.isTerminal])
                · cases hge : env.getExposed <;>
                    simp_all [reconcile, Phase.isTerminal] <;>
                    (subst hr; simp_all [Phase.isTerminal])
              · simp_all [reconcile, Phase.isTerminal]
          | prepared =>
            by_cases hnd : rec.node = env.nodeName
            · rcases hc : mgr.create rec.name with ⟨mgr2, b⟩
              cases b
              · simp_all [reconcile, Phase.isTerminal]
              · cases hio : env.inProgressOutcome <;>
                  simp_all [reconcile, Phase.isTerminal] <;>
                  (subst hr; simp_all [Phase.isTerminal])
            · simp_all [reconcile, Phase.isTerminal]
          | inProgress =>
            cases hcl : rec.cancel <;>
              simp_all [reconcile, Phase.isTerminal] <;>
              (subst hr; simp_all [Phase.isTerminal])
          | canceling =>
            simp_all [reconcile, Phase.isTerminal]
          | completed => simp_all [Phase.isTerminal]
          | failed => simp_all [Phase.isTerminal]
          | canceled => simp_all [Phase.isTerminal]
    · simp [reconcile, hmv] at hr
      subst hr
      exact hinv hterm
  · intro now e rec hnow
    refine ⟨?_, ?_, ?_, ?_, ?_, ?_, ?_⟩ <;>
      simpa [OnDataUploadCompleted, OnDataDownloadCompleted,
        OnDataUploadFailed, OnDataDownloadFailed, OnDataUploadCancelled,
        OnDataDownloadCancelled] using hnow
  · intro env pvr msg hpe hnow
    simpa [failRestore, patchPodVolumeRestore, hpe] using hnow

/-- Witness for claim C8: the reconcile invariant at the concrete
prepare-timeout transition, the upload OnFailed callback, and the
PodVolumeRestore failure path. -/
theorem terminal_phase_has_completionTimestamp_witness :
    (∀ r2, (reconcile ⟨"n1", "velero", 400, 300, .ok, .ok, .ok, false, none,
            .notReady⟩ ⟨1, []⟩
          (some ⟨"du1", "velero", false, .accepted, "n1", 10, 0, "", true,
            false⟩)).record = some r2 →
        r2.phase.isTerminal = true → r2.completionTimestamp ≠ 0) ∧
    (OnDataUploadFailed 9 false "boom"
        ⟨"du1", "velero", false, .inProgress, "n1", 3, 0, "", true,
         false⟩).1.completionTimestamp ≠ 0 ∧
    (failRestore ⟨"node-1", 42, none, none, none⟩ ⟨.inProgress, 5, 0, ""⟩
        "bad").store.completionTimestamp ≠ 0 :=
  ⟨fun r2 hr =>
    terminal_phase_has_completionTimestamp.1
      ⟨"n1", "velero", 400, 300, .ok, .ok, .ok, false, none, .notReady⟩
      ⟨1, []⟩
      ⟨"du1", "velero", false, .accepted, "n1", 10, 0, "", true, false⟩ r2
      (by decide) (by simp [Phase.isTerminal]) hr,
   (terminal_phase_has_completionTimestamp.2.1 9 "boom"
      ⟨"du1", "velero", false, .inProgress, "n1", 3, 0, "", true, false⟩
      (by decide)).2.2.2.1,
   terminal_phase_has_completionTimestamp.2.2
     ⟨"node-1", 42, none, none, none⟩ ⟨.inProgress, 5, 0, ""⟩ "bad" rfl
     (by decide)⟩

end Velero







